import Mathlib

/-!
Verification of the EC2 automated-backup Lambda
(src/lambda/lambda_function.py) against its specification.

The Python source is shallowly embedded: the AWS API responses and the
outcome of each mutating API call are supplied by an `Env` record, and the
handler's functions become pure Lean functions that return the log lines
produced and the list of mutating EC2 calls issued (create_snapshot,
create_tags, delete_snapshot), plus the S3 put-object attempts and local
diagnostic prints.  Dates are day-granular: a `Ymd` triple mirrors
`datetime.date`, `toOrdinal` mirrors `date.toordinal`, `dateIso` mirrors
`date.isoformat`, and `parseDate` mirrors the accept/reject behaviour of
`datetime.datetime.strptime(v, "%Y-%m-%d").date()` (exactly four digits
for the year, one or two digits for month and day, value ranges checked
against the Gregorian calendar; the exact text of the raised ValueError is
abstracted by `strptimeErrorMsg`).
-/

/-- A resource tag: a key/value pair, as in the AWS API. -/
structure Tag where
  key : String
  value : String
deriving DecidableEq, Repr

/-- The `Ebs` sub-object of a block-device mapping, holding the volume id. -/
structure Ebs where
  volumeId : String
deriving DecidableEq, Repr

/-- One entry of an instance's `BlockDeviceMappings`; `ebs = none` models a
device without an `"Ebs"` key (instance-store backed). -/
structure BlockDeviceMapping where
  ebs : Option Ebs
deriving DecidableEq, Repr

/-- An EC2 instance as read by the handler: id, lifecycle state name,
tags, and attached block devices. -/
structure Instance where
  instanceId : String
  stateName : String
  tags : List Tag
  blockDeviceMappings : List BlockDeviceMapping
deriving DecidableEq, Repr

/-- A reservation groups instances, as in `describe_instances` output. -/
structure Reservation where
  instances : List Instance
deriving DecidableEq, Repr

/-- A snapshot as read by the handler: id, status, tags. -/
structure Snapshot where
  snapshotId : String
  status : String
  tags : List Tag
deriving DecidableEq, Repr

/-- A calendar date at day granularity, mirroring `datetime.date`. -/
structure Ymd where
  year : Nat
  month : Nat
  day : Nat
deriving DecidableEq, Repr

/-- Gregorian leap-year test. -/
def isLeap (y : Nat) : Bool :=
  y % 4 == 0 && (y % 100 != 0 || y % 400 == 0)

/-- Number of days in month `m` of year `y`. -/
def daysInMonth (y m : Nat) : Nat :=
  if m == 2 then (if isLeap y then 29 else 28)
  else if m == 4 || m == 6 || m == 9 || m == 11 then 30
  else 31

/-- Days in the months of year `y` strictly before month `m`. -/
def daysBeforeMonth (y m : Nat) : Nat :=
  (List.range (m - 1)).foldl (fun a i => a + daysInMonth y (i + 1)) 0

/-- Proleptic-Gregorian ordinal of a date, mirroring `date.toordinal`
(day 1 is 0001-01-01). -/
def toOrdinal (d : Ymd) : Nat :=
  let p := d.year - 1
  365 * p + p / 4 - p / 100 + p / 400 + daysBeforeMonth d.year d.month + d.day

/-- Decimal digits of a string of digit characters, most significant first. -/
def digitsVal (l : List Char) : Nat :=
  l.foldl (fun a c => a * 10 + (c.toNat - 48)) 0

/-- Every character is a decimal digit. -/
def allDigits (l : List Char) : Bool :=
  l.all Char.isDigit

/-- Split a character list at each dash, like Python's `split("-")`. -/
def splitDash : List Char → List (List Char)
  | [] => [[]]
  | c :: rest =>
    if c = '-' then [] :: splitDash rest
    else
      match splitDash rest with
      | [] => [[c]]
      | h :: t => (c :: h) :: t

/-- Model of `datetime.datetime.strptime(s, "%Y-%m-%d").date()` as a total
function: `some` exactly when strptime succeeds and the resulting calendar
date is valid (four-digit year at least 0001, one-or-two-digit month in
1..12, one-or-two-digit day within the month). -/
def parseDate (s : String) : Option Ymd :=
  match splitDash s.data with
  | [ys, ms, ds] =>
    let y := digitsVal ys
    let m := digitsVal ms
    let d := digitsVal ds
    if allDigits ys = true ∧ ys.length = 4 ∧
       allDigits ms = true ∧ (ms.length = 1 ∨ ms.length = 2) ∧
       allDigits ds = true ∧ (ds.length = 1 ∨ ds.length = 2) ∧
       1 ≤ y ∧ 1 ≤ m ∧ m ≤ 12 ∧ 1 ≤ d ∧ d ≤ daysInMonth y m
    then some ⟨y, m, d⟩ else none
  | _ => none

/-- Message of the ValueError raised by strptime on a non-matching string
(the exact CPython wording is abstracted). -/
def strptimeErrorMsg (v : String) : String :=
  "time data " ++ v ++ " does not match format %Y-%m-%d"

/-- Character of a single decimal digit. -/
def digitChar (n : Nat) : Char :=
  Char.ofNat (48 + n)

/-- Four-digit zero-padded decimal rendering (years are at most 9999). -/
def pad4 (n : Nat) : List Char :=
  [digitChar (n / 1000 % 10), digitChar (n / 100 % 10),
   digitChar (n / 10 % 10), digitChar (n % 10)]

/-- Two-digit zero-padded decimal rendering. -/
def pad2 (n : Nat) : List Char :=
  [digitChar (n / 10 % 10), digitChar (n % 10)]

/-- ISO rendering of a date, mirroring `date.isoformat` (also `str(date)`):
zero-padded `YYYY-MM-DD`, no time component. -/
def dateIso (d : Ymd) : String :=
  String.mk (pad4 d.year ++ '-' :: (pad2 d.month ++ '-' :: pad2 d.day))

/-- The mutating EC2 API calls the handler can issue. -/
inductive Ec2Call where
  | createSnapshot (volumeId : String) (description : String)
  | createTags (resources : List String) (tags : List Tag)
  | deleteSnapshot (snapshotId : String)
deriving DecidableEq, Repr

/-- An S3 `put_object` attempt. -/
structure S3Put where
  bucket : String
  key : String
  body : String
  contentType : String
deriving DecidableEq, Repr

/-- The environment of one invocation: the AWS data the queries return,
the scripted outcome of each mutating call (keyed by the id it targets),
the configuration (`RETENTION_DAYS`, `LOG_BUCKET`), and the clock
(`today = datetime.date.today()`, `now = datetime.datetime.now().isoformat()`). -/
structure Env where
  reservations : List Reservation
  describeInstancesError : Option String
  allSnapshots : List Snapshot
  describeSnapshotsError : Option String
  createSnapshotResult : String → Except String String
  createTagsResult : String → Except String Unit
  deleteSnapshotResult : String → Except String Unit
  putObjectError : Option String
  today : Ymd
  retentionDays : Int
  logBucket : String
  now : String

/-- Server-side filter `tag:Backup = true` of `describe_instances`. -/
def matchesBackup (inst : Instance) : Bool :=
  inst.tags.any fun t => t.key == "Backup" && t.value == "true"

/-- What `describe_instances(Filters=[tag:Backup=true])` returns: each
reservation keeps only its matching instances, and reservations left with
no matching instance are dropped. -/
def filterReservations (rs : List Reservation) : List Reservation :=
  (rs.map fun r => Reservation.mk (r.instances.filter matchesBackup)).filter
    fun r => !r.instances.isEmpty

/-- Description string passed to `create_snapshot`. -/
def snapDesc (iid vid : String) : String :=
  "Automated backup of " ++ iid ++ ", volume " ++ vid

/-- The tag set applied to a fresh snapshot. -/
def backupTags (iid vid : String) (today : Ymd) : List Tag :=
  [⟨"Name", "backup-" ++ iid ++ "-" ++ vid⟩,
   ⟨"InstanceId", iid⟩,
   ⟨"VolumeId", vid⟩,
   ⟨"CreatedBy", "automated-backup"⟩,
   ⟨"CreatedOn", dateIso today⟩]

/-- The per-volume body of `create_backups`: issue `create_snapshot`; on
success issue `create_tags`; any failure is caught and logged
(`except` block of lines 73-95 of the source). Returns the log lines and
the calls issued for this volume. -/
def backupVolume (env : Env) (iid vid : String) : List String × List Ec2Call :=
  match env.createSnapshotResult vid with
  | .error e =>
    (["Failed to backup " ++ iid ++ "/" ++ vid ++ ": " ++ e],
     [.createSnapshot vid (snapDesc iid vid)])
  | .ok sid =>
    match env.createTagsResult sid with
    | .error e =>
      (["Failed to backup " ++ iid ++ "/" ++ vid ++ ": " ++ e],
       [.createSnapshot vid (snapDesc iid vid),
        .createTags [sid] (backupTags iid vid env.today)])
    | .ok _ =>
      (["Created snapshot " ++ sid ++ " for " ++ iid ++ "/" ++ vid],
       [.createSnapshot vid (snapDesc iid vid),
        .createTags [sid] (backupTags iid vid env.today)])

/-- The EBS-backed volume ids of an instance, in mapping order
(devices without an `"Ebs"` key are skipped). -/
def volumesOf (inst : Instance) : List String :=
  inst.blockDeviceMappings.flatMap fun bdm =>
    match bdm.ebs with
    | none => []
    | some e => [e.volumeId]

/-- The nested instance/volume loop of `create_backups` (lines 58-96):
terminated instances are skipped, every EBS-backed volume of the others is
processed by `backupVolume`.  Log lines and calls are accumulated in loop
order; they are collected by two parallel traversals, which yields the
same lists as the single interleaved loop of the source. -/
def create_backups_body (env : Env) : List String × List Ec2Call :=
  let rs := filterReservations env.reservations
  if rs.isEmpty then
    (["No instances found with Backup=true tag"], [])
  else
    (rs.flatMap fun r => r.instances.flatMap fun inst =>
       if inst.stateName == "terminated" then []
       else (volumesOf inst).flatMap fun vid => (backupVolume env inst.instanceId vid).1,
     rs.flatMap fun r => r.instances.flatMap fun inst =>
       if inst.stateName == "terminated" then []
       else (volumesOf inst).flatMap fun vid => (backupVolume env inst.instanceId vid).2)

/-- `create_backups` (lines 43-97): the initial `describe_instances` call
may raise, in which case the exception escapes the function; otherwise the
loop runs and its per-item failures are all caught internally. -/
def create_backups (env : Env) : Except String (List String × List Ec2Call) :=
  match env.describeInstancesError with
  | some e => .error e
  | none => .ok (create_backups_body env)

/-- First `CreatedOn` tag value of a snapshot, as the tag loop of
lines 119-122 finds it. -/
def findCreatedOn (tags : List Tag) : Option String :=
  (tags.find? fun t => t.key == "CreatedOn").map Tag.value

/-- Server-side filter of `describe_snapshots` (lines 108-114): owned
snapshots carrying tag `CreatedBy = automated-backup` with status
`completed`. -/
def managedSnapshots (snaps : List Snapshot) : List Snapshot :=
  snaps.filter fun s =>
    (s.tags.any fun t => t.key == "CreatedBy" && t.value == "automated-backup") &&
      s.status == "completed"

/-- `cutoff_date = datetime.date.today() - timedelta(days=RETENTION_DAYS)`,
as an ordinal (date subtraction is ordinal subtraction). -/
def cutoffOf (env : Env) : Int :=
  (toOrdinal env.today : Int) - env.retentionDays

/-- The per-snapshot body of the cleanup loop (lines 116-129): read the
first `CreatedOn` tag (absent: skip); parse it (a parse failure raises,
escaping the loop); if the date is strictly before the cutoff, issue
`delete_snapshot`, catching and logging a deletion failure. -/
def snapLogsCalls (env : Env) (s : Snapshot) :
    Except String (List String × List Ec2Call) :=
  match findCreatedOn s.tags with
  | none => .ok ([], [])
  | some v =>
    match parseDate v with
    | none => .error (strptimeErrorMsg v)
    | some d =>
      if (toOrdinal d : Int) < cutoffOf env then
        match env.deleteSnapshotResult s.snapshotId with
        | .ok _ =>
          (.ok (["Deleted old snapshot " ++ s.snapshotId ++ " (created " ++ dateIso d ++ ")"],
                [.deleteSnapshot s.snapshotId]))
        | .error e =>
          (.ok (["Failed to delete snapshot " ++ s.snapshotId ++ ": " ++ e],
                [.deleteSnapshot s.snapshotId]))
      else .ok ([], [])

/-- The cleanup loop over the returned snapshot list, accumulating log
lines and calls; an escaping exception ends the loop, keeping what was
accumulated before it (Python mutates `logs` in place). -/
def cleanupLoop (env : Env) : List Snapshot → (List String × List Ec2Call) × Option String
  | [] => (([], []), none)
  | s :: rest =>
    match snapLogsCalls env s with
    | .error e => (([], []), some e)
    | .ok lc =>
      let r := cleanupLoop env rest
      ((lc.1 ++ r.1.1, lc.2 ++ r.1.2), r.2)

/-- `cleanup_old_snapshots` (lines 99-134): a failure of the discovery
query, or any exception escaping the loop (a strptime failure), is caught
by the step-level handler, which appends one `Error during cleanup:` line;
the step itself never raises. -/
def cleanup_old_snapshots (env : Env) : List String × List Ec2Call :=
  match env.describeSnapshotsError with
  | some e => (["Error during cleanup: " ++ e], [])
  | none =>
    let r := cleanupLoop env (managedSnapshots env.allSnapshots)
    match r.2 with
    | none => r.1
    | some e => (r.1.1 ++ ["Error during cleanup: " ++ e], r.1.2)

/-- Report body built by `save_logs_to_s3` (lines 140-142): header line
with the timestamp, a 50-character separator rule, a blank line, then the
log lines joined by newlines. -/
def renderReport (ts : String) (logs : List String) : String :=
  "EC2 Backup Report - " ++ ts ++ "\n" ++ String.mk (List.replicate 50 '=') ++
    "\n\n" ++ String.intercalate "\n" logs

/-- Object key of the report: `backup-logs/<date-prefix>/backup-<ts>.txt`
where the date prefix is the first ten characters of the timestamp. -/
def reportKey (ts : String) : String :=
  "backup-logs/" ++ String.mk (ts.data.take 10) ++ "/backup-" ++ ts ++ ".txt"

/-- The single `put_object` record that `save_logs_to_s3` attempts. -/
def mkReportPut (env : Env) (logs : List String) : S3Put :=
  ⟨env.logBucket, reportKey env.now, renderReport env.now logs, "text/plain"⟩

/-- `save_logs_to_s3` (lines 136-152): issue exactly one `put_object`; a
failure is caught and printed to stdout, never re-raised.  Returns the put
attempts and the printed diagnostic lines. -/
def save_logs_to_s3 (env : Env) (logs : List String) : List S3Put × List String :=
  ([mkReportPut env logs],
   match env.putObjectError with
   | some e => ["Failed to save logs to S3: " ++ e]
   | none => [])

/-- What the handler hands back to the invoker: the 200 response with its
body, or the re-raised exception. -/
inductive HandlerOutcome where
  | success (statusCode : Nat) (body : String)
  | raised (err : String)
deriving DecidableEq, Repr

/-- Everything observable about one invocation. -/
structure RunResult where
  outcome : HandlerOutcome
  ec2Calls : List Ec2Call
  s3Puts : List S3Put
  printed : List String
deriving Repr

/-- `lambda_handler` (lines 14-41): run creation then cleanup, persist the
report, return 200 with a count taken from `len(backup_logs)`; an
exception escaping a step (in this model: a `describe_instances` failure,
the only uncaught raise site) is appended to the log as `Backup failed:`,
the partial report is persisted, and the exception is re-raised. -/
def lambda_handler (env : Env) : RunResult :=
  match create_backups env with
  | .error e =>
    let logs := ["Backup failed: " ++ e]
    let sp := save_logs_to_s3 env logs
    ⟨.raised e, [], sp.1, sp.2⟩
  | .ok blc =>
    let clc := cleanup_old_snapshots env
    let logs := blc.1 ++ clc.1
    let sp := save_logs_to_s3 env logs
    ⟨.success 200 ("Backup completed successfully. " ++ Nat.repr blc.1.length ++
        " snapshots created."),
     blc.2 ++ clc.2, sp.1, sp.2⟩

/-- A well-formed calendar date (what `datetime.date` can hold: year in
1..9999, month in 1..12, day within the month). -/
def validYmd (d : Ymd) : Prop :=
  1 ≤ d.year ∧ d.year ≤ 9999 ∧ 1 ≤ d.month ∧ d.month ≤ 12 ∧
    1 ≤ d.day ∧ d.day ≤ daysInMonth d.year d.month

/-- The (instance id, volume id) pairs the creation loop attempts a
snapshot for: labelled, non-terminated instances and their EBS-backed
volumes, in loop order. -/
def eligiblePairs (env : Env) : List (String × String) :=
  (filterReservations env.reservations).flatMap fun r =>
    r.instances.flatMap fun inst =>
      if inst.stateName == "terminated" then []
      else (volumesOf inst).map fun vid => (inst.instanceId, vid)

/-- Recognizes a `create_snapshot` call for volume `vid`. -/
def isCSFor (vid : String) : Ec2Call → Bool
  | .createSnapshot v _ => v == vid
  | _ => false

/-- Recognizes a `create_tags` call whose resource list is `[sid]`. -/
def isTagWith (sid : String) : Ec2Call → Bool
  | .createTags rs _ => rs == [sid]
  | _ => false

/-- A baseline invocation environment used to instantiate the theorems on
concrete inputs: no instances, no snapshots, every scripted call succeeds,
today is 2026-10-12 and the retention window is 7 days. -/
def baseEnv : Env where
  reservations := []
  describeInstancesError := none
  allSnapshots := []
  describeSnapshotsError := none
  createSnapshotResult := fun _ => .ok "snap-new-1"
  createTagsResult := fun _ => .ok ()
  deleteSnapshotResult := fun _ => .ok ()
  putObjectError := none
  today := ⟨2026, 10, 12⟩
  retentionDays := 7
  logBucket := "backup-log-bucket"
  now := "2026-10-12T03:04:05.000006"

/-- A labelled, running instance with one EBS-backed volume and one
instance-store device. -/
def instW : Instance :=
  ⟨"i-1", "running", [⟨"Backup", "true"⟩], [⟨some ⟨"vol-1"⟩⟩, ⟨none⟩]⟩

/-- A managed snapshot old enough to be deleted (created 2026-01-01). -/
def snapOld : Snapshot :=
  ⟨"snap-a", "completed", [⟨"CreatedBy", "automated-backup"⟩, ⟨"CreatedOn", "2026-01-01"⟩]⟩

/-- A managed snapshot created exactly at the cutoff (2026-10-05 with a
7-day window and today 2026-10-12): the boundary case. -/
def snapAtCutoff : Snapshot :=
  ⟨"snap-b", "completed", [⟨"CreatedBy", "automated-backup"⟩, ⟨"CreatedOn", "2026-10-05"⟩]⟩

/-- A managed snapshot with no `CreatedOn` tag. -/
def snapNoDate : Snapshot :=
  ⟨"snap-c", "completed", [⟨"CreatedBy", "automated-backup"⟩]⟩

/-- A managed snapshot whose `CreatedOn` value does not parse. -/
def snapBadDate : Snapshot :=
  ⟨"snap-d", "completed", [⟨"CreatedBy", "automated-backup"⟩, ⟨"CreatedOn", "not-a-date"⟩]⟩

/-- A second old managed snapshot (created 2026-02-02). -/
def snapOld2 : Snapshot :=
  ⟨"snap-e", "completed", [⟨"CreatedBy", "automated-backup"⟩, ⟨"CreatedOn", "2026-02-02"⟩]⟩

/-- Environment for exercising cleanup: one expired snapshot, one at the
cutoff, one without a creation-date tag. -/
def envCleanup : Env :=
  { baseEnv with allSnapshots := [snapOld, snapAtCutoff, snapNoDate] }

/-- Environment in which no instance carries the backup label: one
running instance exists but it has no `Backup=true` tag. -/
def envNoLabeled : Env :=
  { baseEnv with reservations := [⟨[⟨"i-2", "running", [], [⟨some ⟨"vol-9"⟩⟩]⟩]⟩] }

/-- Environment with a single labelled running instance (`instW`) whose
scripted calls all succeed. -/
def envOneInst : Env :=
  { baseEnv with reservations := [⟨[instW]⟩] }

/-- Environment with two labelled single-volume instances in which the
first volume's create-snapshot call is scripted to fail. -/
def envTwoVols : Env :=
  { baseEnv with
    reservations :=
      [⟨[⟨"i-1", "running", [⟨"Backup", "true"⟩], [⟨some ⟨"vol-1"⟩⟩]⟩,
         ⟨"i-2", "running", [⟨"Backup", "true"⟩], [⟨some ⟨"vol-2"⟩⟩]⟩]⟩],
    createSnapshotResult := fun v =>
      if v == "vol-1" then .error "RequestLimitExceeded" else .ok "snap-new-2" }

/-- Environment whose instance discovery query is scripted to raise. -/
def envFail : Env :=
  { baseEnv with describeInstancesError := some "ThrottlingException" }

/-- Environment producing one creation log line and one cleanup log line. -/
def envReport : Env :=
  { baseEnv with reservations := [⟨[instW]⟩], allSnapshots := [snapOld] }

/-- Environment whose report put-object call is scripted to fail. -/
def envPutFail : Env :=
  { baseEnv with putObjectError := some "AccessDenied" }

/-- The creation loop's calls are exactly the per-pair calls of the
eligible pairs, concatenated in loop order. -/
theorem create_backups_body_calls (env : Env) :
    (create_backups_body env).2 =
      (eligiblePairs env).flatMap fun p => (backupVolume env p.1 p.2).2 := by
  unfold create_backups_body eligiblePairs
  by_cases h : (filterReservations env.reservations).isEmpty
  · rw [List.isEmpty_iff] at h
    simp [h]
  · simp only [h, if_neg, Bool.false_eq_true, not_false_iff, List.flatMap_assoc]
    refine List.flatMap_congr ?_
    intro r _
    refine List.flatMap_congr ?_
    intro inst _
    by_cases ht : inst.stateName == "terminated"
    · simp [ht]
    · simp [ht, List.flatMap_map]

/-- The creation loop's log lines, in the instances-found case, are
exactly the per-pair log lines of the eligible pairs. -/
theorem create_backups_body_logs (env : Env)
    (h : ¬(filterReservations env.reservations).isEmpty = true) :
    (create_backups_body env).1 =
      (eligiblePairs env).flatMap fun p => (backupVolume env p.1 p.2).1 := by
  unfold create_backups_body eligiblePairs
  simp only [h, if_neg, not_false_iff, List.flatMap_assoc]
  refine List.flatMap_congr ?_
  intro r _
  refine List.flatMap_congr ?_
  intro inst _
  by_cases ht : inst.stateName == "terminated"
  · simp [ht]
  · simp [ht, List.flatMap_map]

/-- Membership in the snapshot list the cleanup discovery query returns. -/
theorem mem_managedSnapshots (snaps : List Snapshot) (s : Snapshot) :
    s ∈ managedSnapshots snaps ↔
      s ∈ snaps ∧
        (s.tags.any fun t => t.key == "CreatedBy" && t.value == "automated-backup") = true ∧
        s.status = "completed" := by
  unfold managedSnapshots
  rw [List.mem_filter]
  constructor
  · rintro ⟨hm, hp⟩
    rw [Bool.and_eq_true] at hp
    exact ⟨hm, hp.1, by simpa using hp.2⟩
  · rintro ⟨hm, ha, hs⟩
    exact ⟨hm, by simp [ha, hs]⟩

/-- Any call the per-snapshot cleanup body issues is a delete of that
snapshot, and only happens when its `CreatedOn` tag parses to a date
strictly before the cutoff. -/
theorem snapLogsCalls_ok_mem (env : Env) (s : Snapshot) (lc : List String × List Ec2Call)
    (hok : snapLogsCalls env s = .ok lc) (c : Ec2Call) (hc : c ∈ lc.2) :
    c = .deleteSnapshot s.snapshotId ∧
      ∃ v d, findCreatedOn s.tags = some v ∧ parseDate v = some d ∧
        (toOrdinal d : Int) < cutoffOf env := by
  unfold snapLogsCalls at hok
  split at hok
  next => cases hok; simp at hc
  next v hv =>
    split at hok
    next => cases hok
    next d hp =>
      split at hok
      next hlt =>
        split at hok
        next u hdel =>
          cases hok
          simp only [List.mem_singleton] at hc
          exact ⟨hc, v, d, hv, hp, hlt⟩
        next e hdel =>
          cases hok
          simp only [List.mem_singleton] at hc
          exact ⟨hc, v, d, hv, hp, hlt⟩
      next hlt => cases hok; simp at hc

/-- Any call the cleanup loop issues comes from the per-snapshot body of
some snapshot in the list. -/
theorem cleanupLoop_mem_calls (env : Env) (l : List Snapshot) (c : Ec2Call)
    (hc : c ∈ (cleanupLoop env l).1.2) :
    ∃ s ∈ l, ∃ lc, snapLogsCalls env s = .ok lc ∧ c ∈ lc.2 := by
  induction l with
  | nil => simp [cleanupLoop] at hc
  | cons s rest ih =>
    unfold cleanupLoop at hc
    cases hs : snapLogsCalls env s with
    | error e => rw [hs] at hc; simp at hc
    | ok lc =>
      rw [hs] at hc
      simp only [List.mem_append] at hc
      cases hc with
      | inl h => exact ⟨s, List.mem_cons_self s rest, lc, hs, h⟩
      | inr h =>
        obtain ⟨s2, hs2, lc2, hok2, hc2⟩ := ih h
        exact ⟨s2, List.mem_cons_of_mem s hs2, lc2, hok2, hc2⟩

/-- Any delete call issued by the cleanup step targets a snapshot that the
discovery query returned, and that snapshot carries a `CreatedOn` tag
parsing to a date strictly before the cutoff. -/
theorem cleanup_calls_provenance (env : Env) (c : Ec2Call)
    (hc : c ∈ (cleanup_old_snapshots env).2) :
    ∃ s ∈ managedSnapshots env.allSnapshots,
      c = .deleteSnapshot s.snapshotId ∧
        ∃ v d, findCreatedOn s.tags = some v ∧ parseDate v = some d ∧
          (toOrdinal d : Int) < cutoffOf env := by
  unfold cleanup_old_snapshots at hc
  cases he : env.describeSnapshotsError with
  | some e => rw [he] at hc; simp at hc
  | none =>
    rw [he] at hc
    simp only at hc
    have hc2 : c ∈ (cleanupLoop env (managedSnapshots env.allSnapshots)).1.2 := by
      cases h2 : (cleanupLoop env (managedSnapshots env.allSnapshots)).2 with
      | none => rw [h2] at hc; exact hc
      | some e => rw [h2] at hc; exact hc
    obtain ⟨s, hsm, lc, hok, hmem⟩ := cleanupLoop_mem_calls env _ c hc2
    obtain ⟨hdel, hrest⟩ := snapLogsCalls_ok_mem env s lc hok c hmem
    exact ⟨s, hsm, hdel, hrest⟩

/-- C1: the cleanup step never issues a delete call for a snapshot lacking
the attribution label (it only sees snapshots the `CreatedBy =
automated-backup` discovery filter returned) or lacking a `CreatedOn`
creation-date attribute: every delete call it issues targets a discovered
snapshot that carries the attribution tag and a parseable `CreatedOn` tag. -/
theorem C1_no_delete_without_label_or_date (env : Env) (id : String)
    (h : Ec2Call.deleteSnapshot id ∈ (cleanup_old_snapshots env).2) :
    ∃ s ∈ managedSnapshots env.allSnapshots,
      s.snapshotId = id ∧
      (s.tags.any fun t => t.key == "CreatedBy" && t.value == "automated-backup") = true ∧
      ∃ v, findCreatedOn s.tags = some v ∧ (parseDate v).isSome = true := by
  obtain ⟨s, hsm, hdel, v, d, hv, hp, _⟩ := cleanup_calls_provenance env _ h
  have hattr := ((mem_managedSnapshots env.allSnapshots s).1 hsm).2.1
  cases hdel
  exact ⟨s, hsm, rfl, hattr, v, hv, by rw [hp]; rfl⟩

/-- Witness for C1: in `envCleanup` a delete call for `snap-a` is actually
issued, and the theorem traces it back to a labelled, dated snapshot. -/
theorem C1_witness :
    (Ec2Call.deleteSnapshot "snap-a" ∈ (cleanup_old_snapshots envCleanup).2) ∧
    ∃ s ∈ managedSnapshots envCleanup.allSnapshots,
      s.snapshotId = "snap-a" ∧
      (s.tags.any fun t => t.key == "CreatedBy" && t.value == "automated-backup") = true ∧
      ∃ v, findCreatedOn s.tags = some v ∧ (parseDate v).isSome = true :=
  ⟨by decide, C1_no_delete_without_label_or_date envCleanup "snap-a" (by decide)⟩

/-- The per-snapshot cleanup body only raises when the `CreatedOn` value
fails to parse. -/
theorem snapLogsCalls_isOk (env : Env) (t : Snapshot)
    (h : ∀ w, findCreatedOn t.tags = some w → (parseDate w).isSome = true) :
    ∃ lc, snapLogsCalls env t = .ok lc := by
  cases hres : snapLogsCalls env t with
  | ok lc => exact ⟨lc, rfl⟩
  | error e =>
    exfalso
    unfold snapLogsCalls at hres
    split at hres
    next => cases hres
    next w hw =>
      split at hres
      next hp => have := h w hw; rw [hp] at this; cases this
      next d hp =>
        split at hres
        next =>
          split at hres
          next => cases hres
          next => cases hres
        next => cases hres

/-- If a snapshot of the scanned list produces a call and no snapshot of
the list raises, that call is among the loop's calls. -/
theorem cleanupLoop_mem_of (env : Env) (l : List Snapshot)
    (hnoerr : ∀ t ∈ l, ∀ w, findCreatedOn t.tags = some w → (parseDate w).isSome = true)
    (s : Snapshot) (hs : s ∈ l) (lc : List String × List Ec2Call)
    (hok : snapLogsCalls env s = .ok lc) (c : Ec2Call) (hc : c ∈ lc.2) :
    c ∈ (cleanupLoop env l).1.2 := by
  induction l with
  | nil => cases hs
  | cons t rest ih =>
    obtain ⟨lct, hokt⟩ := snapLogsCalls_isOk env t (hnoerr t (List.mem_cons_self t rest))
    unfold cleanupLoop
    rw [hokt]
    simp only [List.mem_append]
    rcases List.mem_cons.1 hs with hst | hsr
    · subst hst
      rw [hok] at hokt
      cases hokt
      exact Or.inl hc
    · exact Or.inr (ih (fun u hu => hnoerr u (List.mem_cons_of_mem t hu)) hsr)

/-- The calls of the cleanup step are those of its loop, whether or not an
exception escaped the loop. -/
theorem cleanup_calls_eq (env : Env) (h : env.describeSnapshotsError = none) :
    (cleanup_old_snapshots env).2 =
      (cleanupLoop env (managedSnapshots env.allSnapshots)).1.2 := by
  unfold cleanup_old_snapshots
  rw [h]
  cases h2 : (cleanupLoop env (managedSnapshots env.allSnapshots)).2 <;> simp [h2]

/-- For an old-enough snapshot the per-snapshot body issues its delete
call (whether or not the delete succeeds). -/
theorem snapLogsCalls_delete_of_old (env : Env) (s : Snapshot) (v : String) (d : Ymd)
    (hv : findCreatedOn s.tags = some v) (hd : parseDate v = some d)
    (hlt : (toOrdinal d : Int) < cutoffOf env) :
    ∃ lc, snapLogsCalls env s = .ok lc ∧ Ec2Call.deleteSnapshot s.snapshotId ∈ lc.2 := by
  unfold snapLogsCalls
  simp only [hv, hd, if_pos hlt]
  cases hdel : env.deleteSnapshotResult s.snapshotId with
  | ok u => simp only [hdel]; exact ⟨_, rfl, by simp⟩
  | error e => simp only [hdel]; exact ⟨_, rfl, by simp⟩

/-- C2: when the discovery query succeeds, every scanned `CreatedOn` value
parses, and snapshot ids are distinct, a snapshot of the scan carrying a
creation-date attribute gets a delete call issued if and only if its
creation date is strictly earlier than `today - RETENTION_DAYS`; in
particular a snapshot whose date equals the cutoff is not deleted. -/
theorem C2_delete_iff_strictly_before_cutoff (env : Env) (s : Snapshot) (v : String) (d : Ymd)
    (hde : env.describeSnapshotsError = none)
    (hparse : ∀ t ∈ managedSnapshots env.allSnapshots, ∀ w,
      findCreatedOn t.tags = some w → (parseDate w).isSome = true)
    (hnd : ((managedSnapshots env.allSnapshots).map Snapshot.snapshotId).Nodup)
    (hs : s ∈ managedSnapshots env.allSnapshots)
    (hv : findCreatedOn s.tags = some v)
    (hd : parseDate v = some d) :
    Ec2Call.deleteSnapshot s.snapshotId ∈ (cleanup_old_snapshots env).2 ↔
      (toOrdinal d : Int) < cutoffOf env := by
  constructor
  · intro hmem
    obtain ⟨t, htm, hdel, w, dw, hw, hpw, hlt⟩ := cleanup_calls_provenance env _ hmem
    have hid : t.snapshotId = s.snapshotId := by
      injection hdel with h1
      exact h1.symm
    have hts : t = s := List.inj_on_of_nodup_map hnd htm hs hid
    subst hts
    rw [hv] at hw
    injection hw with hw
    subst hw
    rw [hd] at hpw
    injection hpw with hpw
    subst hpw
    exact hlt
  · intro hlt
    obtain ⟨lc, hok, hmem⟩ := snapLogsCalls_delete_of_old env s v d hv hd hlt
    rw [cleanup_calls_eq env hde]
    exact cleanupLoop_mem_of env _ hparse s hs lc hok _ hmem

/-- Witness for C2: in `envCleanup`, `snap-a` (created 2026-01-01, well
before the 2026-10-05 cutoff) is deleted and `snap-b` (created exactly on
the cutoff) is not. -/
theorem C2_witness :
    (Ec2Call.deleteSnapshot "snap-a" ∈ (cleanup_old_snapshots envCleanup).2) ∧
    (Ec2Call.deleteSnapshot "snap-b" ∉ (cleanup_old_snapshots envCleanup).2) :=
  ⟨(C2_delete_iff_strictly_before_cutoff envCleanup snapOld "2026-01-01" ⟨2026, 1, 1⟩
      rfl (by decide) (by decide) (by decide) (by decide) (by decide)).mpr (by decide),
   fun h =>
     absurd ((C2_delete_iff_strictly_before_cutoff envCleanup snapAtCutoff "2026-10-05"
       ⟨2026, 10, 5⟩ rfl (by decide) (by decide) (by decide) (by decide) (by decide)).mp h)
       (by decide)⟩

/-- Unfolding equation of the cleanup loop on a non-empty list. -/
theorem cleanupLoop_cons (env : Env) (s : Snapshot) (rest : List Snapshot) :
    cleanupLoop env (s :: rest) =
      match snapLogsCalls env s with
      | .error e => (([], []), some e)
      | .ok lc =>
        ((lc.1 ++ (cleanupLoop env rest).1.1, lc.2 ++ (cleanupLoop env rest).1.2),
          (cleanupLoop env rest).2) := rfl

/-- Appending to a scanned list that raised no exception: the loop runs
the first part fully, then continues with the second. -/
theorem cleanupLoop_append (env : Env) (l1 l2 : List Snapshot)
    (h : (cleanupLoop env l1).2 = none) :
    cleanupLoop env (l1 ++ l2) =
      (((cleanupLoop env l1).1.1 ++ (cleanupLoop env l2).1.1,
        (cleanupLoop env l1).1.2 ++ (cleanupLoop env l2).1.2),
        (cleanupLoop env l2).2) := by
  induction l1 with
  | nil => simp [cleanupLoop]
  | cons s rest ih =>
    rw [List.cons_append, cleanupLoop_cons, cleanupLoop_cons]
    rw [cleanupLoop_cons] at h
    cases hs : snapLogsCalls env s with
    | error e => rw [hs] at h; simp at h
    | ok lc =>
      rw [hs] at h
      have h2 : (cleanupLoop env rest).2 = none := h
      simp only [hs]
      rw [ih h2]
      simp [List.append_assoc]

/-- C10: a `CreatedOn` value that does not parse aborts the whole
remaining cleanup pass: the step's output is exactly what the loop had
accumulated on the snapshots before the bad one, followed by a single
`Error during cleanup:` line, and no call is issued for the bad snapshot
or for any snapshot after it. -/
theorem C10_bad_date_aborts_cleanup (env : Env) (pre post : List Snapshot)
    (bad : Snapshot) (v : String)
    (hde : env.describeSnapshotsError = none)
    (hsplit : managedSnapshots env.allSnapshots = pre ++ bad :: post)
    (hv : findCreatedOn bad.tags = some v)
    (hp : parseDate v = none)
    (hpre : (cleanupLoop env pre).2 = none) :
    cleanup_old_snapshots env =
      ((cleanupLoop env pre).1.1 ++ ["Error during cleanup: " ++ strptimeErrorMsg v],
        (cleanupLoop env pre).1.2) := by
  have hbad : cleanupLoop env (bad :: post) = (([], []), some (strptimeErrorMsg v)) := by
    unfold cleanupLoop
    have : snapLogsCalls env bad = .error (strptimeErrorMsg v) := by
      unfold snapLogsCalls
      simp [hv, hp]
    rw [this]
  unfold cleanup_old_snapshots
  rw [hde]
  simp only [hsplit]
  rw [cleanupLoop_append env pre (bad :: post) hpre, hbad]
  simp

/-- Witness for C10: with the scan `[snap-a, snap-d, snap-e]`, the expired
`snap-a` is deleted, the malformed `snap-d` aborts the pass with one error
line, and the expired `snap-e` after it is never deleted. -/
theorem C10_witness :
    cleanup_old_snapshots
        { baseEnv with allSnapshots := [snapOld, snapBadDate, snapOld2] } =
      (["Deleted old snapshot snap-a (created 2026-01-01)",
        "Error during cleanup: time data not-a-date does not match format %Y-%m-%d"],
       [Ec2Call.deleteSnapshot "snap-a"]) :=
  (C10_bad_date_aborts_cleanup
      { baseEnv with allSnapshots := [snapOld, snapBadDate, snapOld2] }
      [snapOld] [snapOld2] snapBadDate "not-a-date"
      rfl (by decide) (by decide) (by decide) (by decide)).trans (by decide)

/-- C3: evaluation of the zero-labelled-instances scenario.  The creation
step logs exactly one informational line and issues zero snapshot API
calls, and the handler reports success — but the success body counts
`len(backup_logs)`, which here is the one informational line, so the
summary reads `1 snapshots created.` while zero artifacts were created.
This contradicts the claimed count of 0: the code reports the number of
creation-step log lines, not the number of artifacts created. -/
theorem C3_zero_instances_reports_one :
    create_backups envNoLabeled =
      .ok (["No instances found with Backup=true tag"], []) ∧
    (lambda_handler envNoLabeled).ec2Calls = [] ∧
    (lambda_handler envNoLabeled).outcome =
      .success 200 "Backup completed successfully. 1 snapshots created." ∧
    (lambda_handler envNoLabeled).outcome ≠
      .success 200 "Backup completed successfully. 0 snapshots created." := by
  refine ⟨rfl, by decide, by decide, by decide⟩

/-- Membership in the eligible (instance, volume) pairs, unfolded back to
the raw reservation data: the instance carries the `Backup=true` label, is
not terminated, and the volume is the EBS backing of one of its devices. -/
theorem mem_eligiblePairs (env : Env) (iid vid : String) :
    (iid, vid) ∈ eligiblePairs env ↔
      ∃ r ∈ env.reservations, ∃ inst ∈ r.instances,
        matchesBackup inst = true ∧ inst.instanceId = iid ∧
        inst.stateName ≠ "terminated" ∧
        ∃ bdm ∈ inst.blockDeviceMappings, ∃ e, bdm.ebs = some e ∧ e.volumeId = vid := by
  constructor
  · intro h
    rw [eligiblePairs, List.mem_flatMap] at h
    obtain ⟨r2, hr2, h2⟩ := h
    rw [List.mem_flatMap] at h2
    obtain ⟨inst, hinst, h3⟩ := h2
    by_cases ht : inst.stateName == "terminated"
    · rw [if_pos ht] at h3
      cases h3
    · rw [if_neg ht] at h3
      rw [List.mem_map] at h3
      obtain ⟨v, hv, heq⟩ := h3
      have hii : inst.instanceId = iid := congrArg Prod.fst heq
      have hvv : v = vid := congrArg Prod.snd heq
      subst hvv
      rw [volumesOf, List.mem_flatMap] at hv
      obtain ⟨bdm, hbdm, hvm⟩ := hv
      cases he : bdm.ebs with
      | none => rw [he] at hvm; cases hvm
      | some e =>
        rw [he] at hvm
        rw [List.mem_singleton] at hvm
        rw [filterReservations, List.mem_filter, List.mem_map] at hr2
        obtain ⟨⟨r, hr, hr2eq⟩, _⟩ := hr2
        subst hr2eq
        rw [List.mem_filter] at hinst
        exact ⟨r, hr, inst, hinst.1, hinst.2, hii,
          fun hc => ht (by simp [hc]), bdm, hbdm, e, he, hvm.symm⟩
  · rintro ⟨r, hr, inst, hinst, hmb, hii, hterm, bdm, hbdm, e, he, hev⟩
    rw [eligiblePairs, List.mem_flatMap]
    refine ⟨⟨r.instances.filter matchesBackup⟩, ?_, ?_⟩
    · rw [filterReservations, List.mem_filter, List.mem_map]
      have hmem : inst ∈ r.instances.filter matchesBackup :=
        List.mem_filter.2 ⟨hinst, hmb⟩
      refine ⟨⟨r, hr, rfl⟩, ?_⟩
      simp only [Bool.not_eq_true']
      rw [List.isEmpty_eq_false]
      exact List.ne_nil_of_mem hmem
    · rw [List.mem_flatMap]
      refine ⟨inst, List.mem_filter.2 ⟨hinst, hmb⟩, ?_⟩
      rw [if_neg (by simp [hterm])]
      rw [List.mem_map]
      refine ⟨vid, ?_, by rw [hii]⟩
      rw [volumesOf, List.mem_flatMap]
      exact ⟨bdm, hbdm, by rw [he]; exact List.mem_singleton.2 hev.symm⟩

/-- The calls of a full invocation, when the instance discovery succeeds,
are the creation-loop calls followed by the cleanup calls. -/
theorem handler_calls_ok (env : Env) (h : env.describeInstancesError = none) :
    (lambda_handler env).ec2Calls =
      (create_backups_body env).2 ++ (cleanup_old_snapshots env).2 := by
  unfold lambda_handler create_backups
  rw [h]

/-- Every call the per-volume creation body issues concerns that volume:
it is the volume's create-snapshot call or the tag call on the snapshot
just created from it. -/
theorem backupVolume_calls_shape (env : Env) (iid vid : String) (c : Ec2Call)
    (hc : c ∈ (backupVolume env iid vid).2) :
    c = .createSnapshot vid (snapDesc iid vid) ∨
      ∃ sid, env.createSnapshotResult vid = .ok sid ∧
        c = .createTags [sid] (backupTags iid vid env.today) := by
  unfold backupVolume at hc
  cases hres : env.createSnapshotResult vid with
  | error e =>
    simp only [hres] at hc
    rw [List.mem_singleton] at hc
    exact Or.inl hc
  | ok sid =>
    simp only [hres] at hc
    cases hts : env.createTagsResult sid with
    | error e =>
      simp only [hts] at hc
      rcases List.mem_cons.1 hc with h1 | h2
      · exact Or.inl h1
      · exact Or.inr ⟨sid, rfl, List.mem_singleton.1 h2⟩
    | ok u =>
      simp only [hts] at hc
      rcases List.mem_cons.1 hc with h1 | h2
      · exact Or.inl h1
      · exact Or.inr ⟨sid, rfl, List.mem_singleton.1 h2⟩

/-- C5: a create-snapshot call is only ever issued for the EBS backing of
a device of an instance that carries the `Backup=true` label and is not
terminated; unlabelled instances, terminated instances and devices
without EBS backing are never snapshotted. -/
theorem C5_no_snapshot_of_ineligible (env : Env) (vid desc : String)
    (h : Ec2Call.createSnapshot vid desc ∈ (lambda_handler env).ec2Calls) :
    ∃ r ∈ env.reservations, ∃ inst ∈ r.instances,
      matchesBackup inst = true ∧ inst.stateName ≠ "terminated" ∧
      ∃ bdm ∈ inst.blockDeviceMappings, ∃ e, bdm.ebs = some e ∧ e.volumeId = vid := by
  cases hde : env.describeInstancesError with
  | some e =>
    unfold lambda_handler create_backups at h
    rw [hde] at h
    cases h
  | none =>
    rw [handler_calls_ok env hde] at h
    rcases List.mem_append.1 h with hb | hcln
    · rw [create_backups_body_calls, List.mem_flatMap] at hb
      obtain ⟨p, hp, hc⟩ := hb
      obtain ⟨iid2, vid2⟩ := p
      obtain hcs | ⟨sid, _, hct⟩ := backupVolume_calls_shape env iid2 vid2 _ hc
      · injection hcs with h1 h2
        subst h1
        obtain ⟨r, hr, inst, hinst, hmb, _, hterm, rest⟩ :=
          (mem_eligiblePairs env iid2 vid).1 hp
        exact ⟨r, hr, inst, hinst, hmb, hterm, rest⟩
      · cases hct
    · obtain ⟨s, _, hdel, _⟩ := cleanup_calls_provenance env _ hcln
      cases hdel

/-- Witness for C5: in an invocation that does snapshot `vol-1`, the
theorem recovers the labelled running instance and EBS device behind the
call. -/
theorem C5_witness :
    (Ec2Call.createSnapshot "vol-1" (snapDesc "i-1" "vol-1") ∈
      (lambda_handler envOneInst).ec2Calls) ∧
    ∃ r ∈ envOneInst.reservations, ∃ inst ∈ r.instances,
      matchesBackup inst = true ∧ inst.stateName ≠ "terminated" ∧
      ∃ bdm ∈ inst.blockDeviceMappings, ∃ e, bdm.ebs = some e ∧ e.volumeId = "vol-1" :=
  ⟨by decide,
   C5_no_snapshot_of_ineligible envOneInst "vol-1" (snapDesc "i-1" "vol-1") (by decide)⟩

/-- The per-volume body always issues the volume's create-snapshot call,
whatever the scripted outcomes. -/
theorem cs_mem_backupVolume (env : Env) (iid vid : String) :
    Ec2Call.createSnapshot vid (snapDesc iid vid) ∈ (backupVolume env iid vid).2 := by
  unfold backupVolume
  cases hres : env.createSnapshotResult vid with
  | error e => simp
  | ok sid =>
    cases hts : env.createTagsResult sid with
    | error e => simp [hts]
    | ok u => simp [hts]

/-- If some pair is eligible, the filtered reservation list is not empty. -/
theorem filterReservations_ne_empty_of_pair (env : Env) (iid vid : String)
    (hmem : (iid, vid) ∈ eligiblePairs env) :
    ¬(filterReservations env.reservations).isEmpty = true := by
  intro he
  rw [List.isEmpty_iff] at he
  rw [eligiblePairs, he] at hmem
  cases hmem

/-- C6: per-item failure isolation of the creation step.  Whatever the
scripted failures of the other items, every eligible (instance, volume)
pair still gets its create-snapshot call issued in the same run; and when
that pair's create-snapshot or tag call fails, a `Failed to backup
<instance>/<volume>: <error>` line naming the pair is in the step's log. -/
theorem C6_per_item_failure_isolated (env : Env) (logs : List String)
    (calls : List Ec2Call) (hok : create_backups env = .ok (logs, calls))
    (iid vid : String) (hmem : (iid, vid) ∈ eligiblePairs env) :
    (Ec2Call.createSnapshot vid (snapDesc iid vid) ∈ calls) ∧
    (∀ e, env.createSnapshotResult vid = .error e →
      ("Failed to backup " ++ iid ++ "/" ++ vid ++ ": " ++ e) ∈ logs) ∧
    (∀ sid e, env.createSnapshotResult vid = .ok sid →
      env.createTagsResult sid = .error e →
      ("Failed to backup " ++ iid ++ "/" ++ vid ++ ": " ++ e) ∈ logs) := by
  unfold create_backups at hok
  cases hde : env.describeInstancesError with
  | some e => rw [hde] at hok; cases hok
  | none =>
    rw [hde] at hok
    injection hok with hok
    have hlogs : logs = (create_backups_body env).1 := by rw [hok]
    have hcalls : calls = (create_backups_body env).2 := by rw [hok]
    subst hlogs
    subst hcalls
    refine ⟨?_, ?_, ?_⟩
    · rw [create_backups_body_calls, List.mem_flatMap]
      exact ⟨(iid, vid), hmem, cs_mem_backupVolume env iid vid⟩
    · intro e he
      rw [create_backups_body_logs env
        (filterReservations_ne_empty_of_pair env iid vid hmem), List.mem_flatMap]
      refine ⟨(iid, vid), hmem, ?_⟩
      unfold backupVolume
      simp only [he]
      simp
    · intro sid e hsid hts
      rw [create_backups_body_logs env
        (filterReservations_ne_empty_of_pair env iid vid hmem), List.mem_flatMap]
      refine ⟨(iid, vid), hmem, ?_⟩
      unfold backupVolume
      simp only [hsid, hts]
      simp

/-- Witness for C6: with `vol-1`'s create-snapshot call failing, the run
still logs the failure with the `i-1/vol-1` context and still issues the
create-snapshot call for the subsequent volume `vol-2`. -/
theorem C6_witness :
    ("Failed to backup i-1/vol-1: RequestLimitExceeded" ∈
      ["Failed to backup i-1/vol-1: RequestLimitExceeded",
       "Created snapshot snap-new-2 for i-2/vol-2"]) ∧
    (Ec2Call.createSnapshot "vol-2" (snapDesc "i-2" "vol-2") ∈
      [Ec2Call.createSnapshot "vol-1" (snapDesc "i-1" "vol-1"),
       Ec2Call.createSnapshot "vol-2" (snapDesc "i-2" "vol-2"),
       Ec2Call.createTags ["snap-new-2"] (backupTags "i-2" "vol-2" ⟨2026, 10, 12⟩)]) :=
  ⟨(C6_per_item_failure_isolated envTwoVols
      ["Failed to backup i-1/vol-1: RequestLimitExceeded",
       "Created snapshot snap-new-2 for i-2/vol-2"]
      [Ec2Call.createSnapshot "vol-1" (snapDesc "i-1" "vol-1"),
       Ec2Call.createSnapshot "vol-2" (snapDesc "i-2" "vol-2"),
       Ec2Call.createTags ["snap-new-2"] (backupTags "i-2" "vol-2" ⟨2026, 10, 12⟩)]
      rfl "i-1" "vol-1" (by decide)).2.1 "RequestLimitExceeded" rfl,
   (C6_per_item_failure_isolated envTwoVols
      ["Failed to backup i-1/vol-1: RequestLimitExceeded",
       "Created snapshot snap-new-2 for i-2/vol-2"]
      [Ec2Call.createSnapshot "vol-1" (snapDesc "i-1" "vol-1"),
       Ec2Call.createSnapshot "vol-2" (snapDesc "i-2" "vol-2"),
       Ec2Call.createTags ["snap-new-2"] (backupTags "i-2" "vol-2" ⟨2026, 10, 12⟩)]
      rfl "i-2" "vol-2" (by decide)).1⟩

/-- A decimal digit character is a digit. -/
theorem digitChar_isDigit (k : Nat) (h : k < 10) : (digitChar k).isDigit = true := by
  interval_cases k <;> decide

/-- A decimal digit character is not a dash. -/
theorem digitChar_ne_dash (k : Nat) (h : k < 10) : digitChar k ≠ '-' := by
  interval_cases k <;> decide

/-- Numeric value of a decimal digit character. -/
theorem digitChar_toNat (k : Nat) (h : k < 10) : (digitChar k).toNat = 48 + k := by
  interval_cases k <;> decide

/-- Splitting a dash-free chunk followed by a dash peels off the chunk. -/
theorem splitDash_chunk (xs rest : List Char) (h : ∀ c ∈ xs, c ≠ '-') :
    splitDash (xs ++ '-' :: rest) = xs :: splitDash rest := by
  induction xs with
  | nil => simp [splitDash]
  | cons c xs ih =>
    have hc : c ≠ '-' := h c (List.mem_cons_self c xs)
    have ih2 := ih fun u hu => h u (List.mem_cons_of_mem c hu)
    rw [List.cons_append]
    simp only [splitDash, if_neg hc, ih2]

/-- Splitting a dash-free list yields the list alone. -/
theorem splitDash_nodash (xs : List Char) (h : ∀ c ∈ xs, c ≠ '-') :
    splitDash xs = [xs] := by
  induction xs with
  | nil => rfl
  | cons c xs ih =>
    have hc : c ≠ '-' := h c (List.mem_cons_self c xs)
    have ih2 := ih fun u hu => h u (List.mem_cons_of_mem c hu)
    simp only [splitDash, if_neg hc, ih2]

/-- No dash occurs in a four-digit chunk. -/
theorem pad4_no_dash (n : Nat) : ∀ c ∈ pad4 n, c ≠ '-' := by
  intro c hc
  simp only [List.mem_cons, pad4, List.not_mem_nil, or_false] at hc
  rcases hc with h | h | h | h <;> subst h <;>
    exact digitChar_ne_dash _ (Nat.mod_lt _ (by norm_num))

/-- No dash occurs in a two-digit chunk. -/
theorem pad2_no_dash (n : Nat) : ∀ c ∈ pad2 n, c ≠ '-' := by
  intro c hc
  simp only [List.mem_cons, pad2, List.not_mem_nil, or_false] at hc
  rcases hc with h | h <;> subst h <;>
    exact digitChar_ne_dash _ (Nat.mod_lt _ (by norm_num))

/-- A four-digit chunk is all digits. -/
theorem pad4_allDigits (n : Nat) : allDigits (pad4 n) = true := by
  unfold allDigits pad4
  simp [List.all_cons, digitChar_isDigit _ (Nat.mod_lt _ (by norm_num))]

/-- A two-digit chunk is all digits. -/
theorem pad2_allDigits (n : Nat) : allDigits (pad2 n) = true := by
  unfold allDigits pad2
  simp [List.all_cons, digitChar_isDigit _ (Nat.mod_lt _ (by norm_num))]

/-- A four-digit chunk reads back as its value, for values up to 9999. -/
theorem digitsVal_pad4 (n : Nat) (h : n ≤ 9999) : digitsVal (pad4 n) = n := by
  unfold digitsVal pad4
  simp only [List.foldl_cons, List.foldl_nil]
  rw [digitChar_toNat _ (Nat.mod_lt _ (by norm_num)),
      digitChar_toNat _ (Nat.mod_lt _ (by norm_num)),
      digitChar_toNat _ (Nat.mod_lt _ (by norm_num)),
      digitChar_toNat _ (Nat.mod_lt _ (by norm_num))]
  omega

/-- A two-digit chunk reads back as its value, for values up to 99. -/
theorem digitsVal_pad2 (n : Nat) (h : n ≤ 99) : digitsVal (pad2 n) = n := by
  unfold digitsVal pad2
  simp only [List.foldl_cons, List.foldl_nil]
  rw [digitChar_toNat _ (Nat.mod_lt _ (by norm_num)),
      digitChar_toNat _ (Nat.mod_lt _ (by norm_num))]
  omega

/-- The ISO rendering of a valid date parses back to the same date: the
`CreatedOn` value written by the creation step is a valid ISO calendar
date. -/
theorem parseDate_dateIso (d : Ymd) (h : validYmd d) : parseDate (dateIso d) = some d := by
  obtain ⟨y, m, dd⟩ := d
  obtain ⟨hy1, hy2, hm1, hm2, hd1, hd2⟩ := h
  replace hy1 : 1 ≤ y := hy1
  replace hy2 : y ≤ 9999 := hy2
  replace hm1 : 1 ≤ m := hm1
  replace hm2 : m ≤ 12 := hm2
  replace hd1 : 1 ≤ dd := hd1
  replace hd2 : dd ≤ daysInMonth y m := hd2
  have hdm : daysInMonth y m ≤ 31 := by
    unfold daysInMonth
    split
    · split <;> omega
    · split <;> omega
  have hyv : digitsVal (pad4 y) = y := digitsVal_pad4 y hy2
  have hmv : digitsVal (pad2 m) = m := digitsVal_pad2 m (by omega)
  have hdv : digitsVal (pad2 dd) = dd := digitsVal_pad2 dd (by omega)
  unfold parseDate dateIso
  have hdata : (String.mk (pad4 y ++ '-' :: (pad2 m ++ '-' :: pad2 dd))).data
      = pad4 y ++ '-' :: (pad2 m ++ '-' :: pad2 dd) := rfl
  rw [hdata, splitDash_chunk _ _ (pad4_no_dash y),
      splitDash_chunk _ _ (pad2_no_dash m),
      splitDash_nodash _ (pad2_no_dash dd)]
  show (if allDigits (pad4 y) = true ∧ (pad4 y).length = 4 ∧
       allDigits (pad2 m) = true ∧ ((pad2 m).length = 1 ∨ (pad2 m).length = 2) ∧
       allDigits (pad2 dd) = true ∧ ((pad2 dd).length = 1 ∨ (pad2 dd).length = 2) ∧
       1 ≤ digitsVal (pad4 y) ∧ 1 ≤ digitsVal (pad2 m) ∧ digitsVal (pad2 m) ≤ 12 ∧
       1 ≤ digitsVal (pad2 dd) ∧
       digitsVal (pad2 dd) ≤ daysInMonth (digitsVal (pad4 y)) (digitsVal (pad2 m))
     then some (⟨digitsVal (pad4 y), digitsVal (pad2 m), digitsVal (pad2 dd)⟩ : Ymd)
     else none) = some (⟨y, m, dd⟩ : Ymd)
  rw [if_pos ⟨pad4_allDigits y, rfl, pad2_allDigits m, Or.inr rfl,
      pad2_allDigits dd, Or.inr rfl, by rw [hyv]; exact hy1, by rw [hmv]; exact hm1,
      by rw [hmv]; exact hm2, by rw [hdv]; exact hd1, by rw [hdv, hyv, hmv]; exact hd2⟩]
  rw [hyv, hmv, hdv]

/-- C4: for an eligible (instance, volume) pair whose create-snapshot call
succeeds (and whose snapshot id is fresh, with distinct volume ids in the
scan), the invocation's call list contains exactly one create-snapshot
call for that volume followed by exactly one tag call on the new
snapshot; the applied tags carry the attribution label and the current
date rendered as an ISO calendar date (no time component), which parses
back to today's date. -/
theorem C4_one_create_one_tag_per_pair (env : Env) (iid vid sid : String)
    (hde : env.describeInstancesError = none)
    (hmem : (iid, vid) ∈ eligiblePairs env)
    (hnd : ((eligiblePairs env).map Prod.snd).Nodup)
    (hok : env.createSnapshotResult vid = .ok sid)
    (hfresh : ∀ p ∈ eligiblePairs env, ∀ s, env.createSnapshotResult p.2 = .ok s →
      s = sid → p.2 = vid)
    (hvalid : validYmd env.today) :
    ((lambda_handler env).ec2Calls.filter fun c => isCSFor vid c || isTagWith sid c) =
      [.createSnapshot vid (snapDesc iid vid),
       .createTags [sid] (backupTags iid vid env.today)] ∧
    Tag.mk "CreatedBy" "automated-backup" ∈ backupTags iid vid env.today ∧
    Tag.mk "CreatedOn" (dateIso env.today) ∈ backupTags iid vid env.today ∧
    parseDate (dateIso env.today) = some env.today := by
  refine ⟨?_, by simp [backupTags], by simp [backupTags], parseDate_dateIso _ hvalid⟩
  rw [handler_calls_ok env hde, List.filter_append]
  have hcln : ((cleanup_old_snapshots env).2.filter
      fun c => isCSFor vid c || isTagWith sid c) = [] := by
    rw [List.filter_eq_nil_iff]
    intro c hc
    obtain ⟨s, _, hdel, _⟩ := cleanup_calls_provenance env c hc
    subst hdel
    simp [isCSFor, isTagWith]
  rw [hcln, List.append_nil, create_backups_body_calls, List.filter_flatMap]
  obtain ⟨l1, l2, hsplit⟩ := List.append_of_mem hmem
  rw [hsplit]
  have hndm : ((l1 ++ (iid, vid) :: l2).map Prod.snd).Nodup := by
    rw [← hsplit]
    exact hnd
  have hvnotmem : vid ∉ (l1 ++ l2).map Prod.snd := by
    rw [List.map_append, List.map_cons, List.nodup_middle] at hndm
    have := hndm.not_mem
    rw [List.map_append]
    exact this
  have hother : ∀ p ∈ l1 ++ l2,
      ((backupVolume env p.1 p.2).2.filter fun c => isCSFor vid c || isTagWith sid c)
        = [] := by
    intro p hp
    have hpfull : p ∈ eligiblePairs env := by
      rw [hsplit]
      rcases List.mem_append.1 hp with h1 | h2
      · exact List.mem_append.2 (Or.inl h1)
      · exact List.mem_append.2 (Or.inr (List.mem_cons_of_mem _ h2))
    have hpvne : p.2 ≠ vid := by
      intro he
      exact hvnotmem (he ▸ List.mem_map_of_mem Prod.snd hp)
    rw [List.filter_eq_nil_iff]
    intro c hc
    obtain hcs | ⟨s2, hres2, hct⟩ := backupVolume_calls_shape env p.1 p.2 c hc
    · subst hcs
      simp [isCSFor, isTagWith, hpvne]
    · subst hct
      have hs2 : s2 ≠ sid := fun he => hpvne (hfresh p hpfull s2 hres2 he)
      simp [isCSFor, isTagWith, hs2]
  have hmid : ((backupVolume env iid vid).2.filter
      fun c => isCSFor vid c || isTagWith sid c) =
      [Ec2Call.createSnapshot vid (snapDesc iid vid),
       Ec2Call.createTags [sid] (backupTags iid vid env.today)] := by
    unfold backupVolume
    simp only [hok]
    cases hts : env.createTagsResult sid <;> simp [isCSFor, isTagWith]
  rw [List.flatMap_append, List.flatMap_cons]
  rw [List.flatMap_eq_nil_iff.2 fun p hp => hother p (List.mem_append.2 (Or.inl hp)),
      List.flatMap_eq_nil_iff.2 fun p hp => hother p (List.mem_append.2 (Or.inr hp))]
  rw [hmid]
  simp

/-- Witness for C4: in the single-instance run, filtering the invocation's
calls down to `vol-1` snapshots and `snap-new-1` taggings leaves exactly
the one create-snapshot call followed by the one tag call, and the
`CreatedOn` value written is the parseable ISO rendering of today. -/
theorem C4_witness :
    ((lambda_handler envOneInst).ec2Calls.filter
        fun c => isCSFor "vol-1" c || isTagWith "snap-new-1" c) =
      [Ec2Call.createSnapshot "vol-1" (snapDesc "i-1" "vol-1"),
       Ec2Call.createTags ["snap-new-1"] (backupTags "i-1" "vol-1" ⟨2026, 10, 12⟩)] ∧
    parseDate (dateIso (⟨2026, 10, 12⟩ : Ymd)) = some ⟨2026, 10, 12⟩ := by
  have h := C4_one_create_one_tag_per_pair envOneInst "i-1" "vol-1" "snap-new-1"
    rfl (by decide) (by decide) rfl
    (fun p hp s _ _ => by
      have hl : eligiblePairs envOneInst = [("i-1", "vol-1")] := rfl
      rw [hl] at hp
      have hp2 : p = ("i-1", "vol-1") := by simpa using hp
      rw [hp2])
    (by unfold validYmd; decide)
  exact ⟨h.1, h.2.2.2⟩

/-- C7: an exception escaping the creation step is appended to the log as
a `Backup failed:` line, the partial report is still persisted (one put
with exactly that line as body), and the same error is re-raised; in
general every invocation ends in either a 200 success or a re-raised
error. -/
theorem C7_escaping_error_saved_and_reraised (env : Env) (e : String)
    (h : env.describeInstancesError = some e) :
    (lambda_handler env).outcome = .raised e ∧
    (lambda_handler env).s3Puts = [mkReportPut env ["Backup failed: " ++ e]] ∧
    ∀ env2 : Env, (∃ b, (lambda_handler env2).outcome = .success 200 b) ∨
      ∃ e2, (lambda_handler env2).outcome = .raised e2 := by
  refine ⟨?_, ?_, ?_⟩
  · unfold lambda_handler create_backups
    rw [h]
  · unfold lambda_handler create_backups save_logs_to_s3
    rw [h]
  · intro env2
    unfold lambda_handler
    cases hc : create_backups env2 with
    | error e2 => exact Or.inr ⟨e2, rfl⟩
    | ok blc => exact Or.inl ⟨_, rfl⟩

/-- Witness for C7: the scripted discovery failure is re-raised and the
report persisted with the single failure line. -/
theorem C7_witness :
    (lambda_handler envFail).outcome = .raised "ThrottlingException" ∧
    (lambda_handler envFail).s3Puts =
      [mkReportPut envFail ["Backup failed: ThrottlingException"]] :=
  ⟨(C7_escaping_error_saved_and_reraised envFail "ThrottlingException" rfl).1,
   (C7_escaping_error_saved_and_reraised envFail "ThrottlingException" rfl).2.1⟩

/-- C8: exactly one report object is written per invocation, on the
success path and on the failure path alike; on the success path its body
is the header and separator followed by all creation-step log lines and
then all cleanup-step log lines, in the order produced. -/
theorem C8_single_ordered_report (env : Env) :
    (lambda_handler env).s3Puts.length = 1 ∧
    (env.describeInstancesError = none →
      (lambda_handler env).s3Puts =
        [⟨env.logBucket, reportKey env.now,
          renderReport env.now
            ((create_backups_body env).1 ++ (cleanup_old_snapshots env).1),
          "text/plain"⟩]) := by
  constructor
  · unfold lambda_handler create_backups save_logs_to_s3
    cases hde : env.describeInstancesError <;> simp
  · intro hde
    unfold lambda_handler create_backups save_logs_to_s3 mkReportPut
    rw [hde]

set_option maxRecDepth 4096 in
/-- Witness for C8: the one-instance one-old-snapshot run writes exactly
this report, the creation line preceding the cleanup line after the
header and separator. -/
theorem C8_witness :
    (lambda_handler envReport).s3Puts =
      [⟨"backup-log-bucket",
        "backup-logs/2026-10-12/backup-2026-10-12T03:04:05.000006.txt",
        "EC2 Backup Report - 2026-10-12T03:04:05.000006\n" ++
          String.mk (List.replicate 50 '=') ++
          "\n\nCreated snapshot snap-new-1 for i-1/vol-1\nDeleted old snapshot snap-a (created 2026-01-01)",
        "text/plain"⟩] :=
  ((C8_single_ordered_report envReport).2 rfl).trans (by decide)

/-- Cleanup reads only the snapshot scan, the delete outcomes, the clock
and the retention window: two environments agreeing on those agree on the
cleanup output. -/
theorem cleanup_old_snapshots_congr (envA envB : Env)
    (h1 : envA.allSnapshots = envB.allSnapshots)
    (h2 : envA.describeSnapshotsError = envB.describeSnapshotsError)
    (h3 : envA.deleteSnapshotResult = envB.deleteSnapshotResult)
    (h4 : envA.today = envB.today)
    (h5 : envA.retentionDays = envB.retentionDays) :
    cleanup_old_snapshots envA = cleanup_old_snapshots envB := by
  have hsnap : ∀ s, snapLogsCalls envA s = snapLogsCalls envB s := by
    intro s
    unfold snapLogsCalls cutoffOf
    simp only [h3, h4, h5]
  have hloop : ∀ l, cleanupLoop envA l = cleanupLoop envB l := by
    intro l
    induction l with
    | nil => rfl
    | cons s rest ih => rw [cleanupLoop_cons, cleanupLoop_cons, hsnap s, ih]
  unfold cleanup_old_snapshots
  simp only [h1, h2, hloop]

/-- C9: a failing report put is only printed to local diagnostics; it
changes neither the outcome handed to the invoker, nor the EC2 calls, nor
the put attempt, relative to the same run with a succeeding put. -/
theorem C9_put_failure_never_propagates (env : Env) (e : String)
    (h : env.putObjectError = some e) :
    (lambda_handler env).printed = ["Failed to save logs to S3: " ++ e] ∧
    (lambda_handler env).outcome =
      (lambda_handler { env with putObjectError := none }).outcome ∧
    (lambda_handler env).ec2Calls =
      (lambda_handler { env with putObjectError := none }).ec2Calls ∧
    (lambda_handler env).s3Puts =
      (lambda_handler { env with putObjectError := none }).s3Puts := by
  obtain ⟨rs, die, snaps, dse, csr, ctr, dsr, poe, td, rd, lb, nw⟩ := env
  simp only at h
  subst h
  have hclean : cleanup_old_snapshots ⟨rs, die, snaps, dse, csr, ctr, dsr, none, td, rd, lb, nw⟩
      = cleanup_old_snapshots ⟨rs, die, snaps, dse, csr, ctr, dsr, some e, td, rd, lb, nw⟩ :=
    cleanup_old_snapshots_congr _ _ rfl rfl rfl rfl rfl
  have hput : ∀ logs, mkReportPut ⟨rs, die, snaps, dse, csr, ctr, dsr, none, td, rd, lb, nw⟩ logs
      = mkReportPut ⟨rs, die, snaps, dse, csr, ctr, dsr, some e, td, rd, lb, nw⟩ logs :=
    fun _ => rfl
  unfold lambda_handler
  cases hc : create_backups ⟨rs, die, snaps, dse, csr, ctr, dsr, some e, td, rd, lb, nw⟩ with
  | error e2 =>
    have hc2 : create_backups ⟨rs, die, snaps, dse, csr, ctr, dsr, none, td, rd, lb, nw⟩
        = .error e2 := hc
    rw [hc2]
    refine ⟨rfl, rfl, rfl, ?_⟩
    show [mkReportPut ⟨rs, die, snaps, dse, csr, ctr, dsr, some e, td, rd, lb, nw⟩
        ["Backup failed: " ++ e2]]
      = [mkReportPut ⟨rs, die, snaps, dse, csr, ctr, dsr, none, td, rd, lb, nw⟩
        ["Backup failed: " ++ e2]]
    rw [hput]
  | ok blc =>
    have hc2 : create_backups ⟨rs, die, snaps, dse, csr, ctr, dsr, none, td, rd, lb, nw⟩
        = .ok blc := hc
    rw [hc2]
    refine ⟨rfl, rfl, ?_, ?_⟩
    · show blc.2 ++
          (cleanup_old_snapshots ⟨rs, die, snaps, dse, csr, ctr, dsr, some e, td, rd, lb, nw⟩).2
        = blc.2 ++
          (cleanup_old_snapshots ⟨rs, die, snaps, dse, csr, ctr, dsr, none, td, rd, lb, nw⟩).2
      rw [hclean]
    · show [mkReportPut ⟨rs, die, snaps, dse, csr, ctr, dsr, some e, td, rd, lb, nw⟩
          (blc.1 ++
            (cleanup_old_snapshots ⟨rs, die, snaps, dse, csr, ctr, dsr, some e, td, rd, lb, nw⟩).1)]
        = [mkReportPut ⟨rs, die, snaps, dse, csr, ctr, dsr, none, td, rd, lb, nw⟩
          (blc.1 ++
            (cleanup_old_snapshots ⟨rs, die, snaps, dse, csr, ctr, dsr, none, td, rd, lb, nw⟩).1)]
      rw [hclean, hput]

/-- Witness for C9: with the put scripted to fail, the failure is printed
and the outcome equals that of the identical run whose put succeeds. -/
theorem C9_witness :
    (lambda_handler envPutFail).printed = ["Failed to save logs to S3: AccessDenied"] ∧
    (lambda_handler envPutFail).outcome =
      (lambda_handler { envPutFail with putObjectError := none }).outcome :=
  ⟨(C9_put_failure_never_propagates envPutFail "AccessDenied" rfl).1,
   (C9_put_failure_never_propagates envPutFail "AccessDenied" rfl).2.1⟩
